import Mathlib

/-!
Verification of the schedule-lookup and remote-sync core of `src/upload.py`
(classes `Config`, `CompanionAPI`, `ServiceDataManager`).

Modelling conventions:
* Calendar dates (`DD/MM/YYYY` keys parsed by `datetime.strptime`) are embedded
  as a `Date` structure compared lexicographically by (year, month, day),
  exactly the order Python's `datetime`/`date` comparison yields.
* Python dicts are embedded as association lists with first-match lookup
  (dict literals and loaded JSON objects have distinct keys).
* Python's `sorted` is a stable sort; it is embedded with `List.insertionSort`,
  which is also stable, hence extensionally the same function on every input.
* Network effects (`requests.post`, `requests.get`, `socket.create_connection`)
  are embedded as explicit oracles passed to the functions: an oracle result
  models either a raised `RequestException`/`socket.error` (the error case) or
  the call returning normally. The embedded functions are total Lean functions,
  which captures "never raises to the caller" for the code paths that catch
  all network exceptions.
* The INI settings store is embedded at the level of `configparser`'s
  in-memory section/option/value map, including the parts of its default
  `BasicInterpolation` that act on values: `set` runs `before_set`
  (`ValueError` on a stray `%`), `get` runs `before_get` (collapses `%%` to
  `%`, expands `%(name)s` from the section's options to bounded depth, errors
  on other `%` uses). Option names are lowercased as by the default
  `optionxform`. The file write/read cycle a fresh `Config` instance performs
  is embedded per value as Python `str.strip`, which is exactly what
  `configparser`'s writer and parser do to a single-line value; multi-line
  values, which transform differently, fall outside every theorem below.
  Lowercasing and the whitespace set are ASCII, exact on this program's data.
  The `DEFAULT` section mechanism, which this program never uses (it only
  ever creates `Paths`/`Companion`/`UI`), is not modelled.
-/

/-- First-match lookup in an association list, as Python dict lookup
(dict keys are distinct, so first match is the match). -/
def dictLookup {α β : Type} [DecidableEq α] : List (α × β) → α → Option β
  | [], _ => none
  | (k, v) :: rest, key => if k = key then some v else dictLookup rest key

/-- Python `dict.get(key, fallbackValue)`. -/
def dictGetD {α β : Type} [DecidableEq α] (d : List (α × β)) (key : α) (fb : β) : β :=
  (dictLookup d key).getD fb

/-- A calendar date as parsed by `datetime.strptime(x, '%d/%m/%Y')`. -/
structure Date where
  day : Nat
  month : Nat
  year : Nat
deriving DecidableEq, Repr

/-- Python `date`/`datetime` comparison: lexicographic by (year, month, day). -/
def Date.le (a b : Date) : Bool :=
  decide (a.year < b.year) || (decide (a.year = b.year) &&
    (decide (a.month < b.month) || (decide (a.month = b.month) && decide (a.day ≤ b.day))))

/-- `Date.le` as a relation, for use with `List.insertionSort`. -/
def dateOrder (a b : Date) : Prop := Date.le a b = true

instance : DecidableRel dateOrder := fun a b =>
  inferInstanceAs (Decidable (Date.le a b = true))

theorem dateOrder_refl (a : Date) : dateOrder a a := by
  simp [dateOrder, Date.le]

theorem dateOrder_trans {a b c : Date} (h1 : dateOrder a b) (h2 : dateOrder b c) :
    dateOrder a c := by
  simp [dateOrder, Date.le] at *
  omega

theorem dateOrder_total (a b : Date) : dateOrder a b ∨ dateOrder b a := by
  simp [dateOrder, Date.le]
  omega

instance : IsTrans Date dateOrder := ⟨fun _ _ _ => dateOrder_trans⟩

instance : IsTotal Date dateOrder := ⟨dateOrder_total⟩

/-- A service record: the JSON object stored under one date key. -/
abbrev Record := List (String × String)

/-- The schedule document `ServiceDataManager.data`: JSON object keyed by
dates (the claims' hypothesis that every key parses as `DD/MM/YYYY` is
embedded by typing the keys as `Date`). -/
abbrev Doc := List (Date × Record)

/-- Ordering of `(date, record)` pairs by the date component — the sort key
`lambda x: datetime.strptime(x[0], '%d/%m/%Y').date()` used in
`find_nearest_upcoming_service`. -/
def pairOrder (p q : Date × Record) : Prop := dateOrder p.1 q.1

instance : DecidableRel pairOrder := fun p q =>
  inferInstanceAs (Decidable (dateOrder p.1 q.1))

instance : IsTrans (Date × Record) pairOrder := ⟨fun _ _ _ => dateOrder_trans⟩

instance : IsTotal (Date × Record) pairOrder := ⟨fun p q => dateOrder_total p.1 q.1⟩

/-- `ServiceDataManager.get_sorted_dates`:
`sorted(self.data.keys(), key=lambda x: datetime.strptime(x, '%d/%m/%Y'))`.
Python's `sorted` is a stable sort, embedded by the stable `insertionSort`. -/
def get_sorted_dates (data : Doc) : List Date :=
  List.insertionSort dateOrder (data.map Prod.fst)

/-- `ServiceDataManager.find_nearest_upcoming_service`: filter the items to
those with date `>= today` (in document order), stable-sort them by date, and
return the first if any, else `None`. `today` (read from the system clock in
the source) is a parameter of the embedding. -/
def find_nearest_upcoming_service (data : Doc) (today : Date) : Option (Date × Record) :=
  (List.insertionSort pairOrder (data.filter (fun p => Date.le today p.1))).head?

/-- The fixed list `song_keys` of `ServiceDataManager.extract_song_data`. -/
def song_keys : List String :=
  ["song1", "song2", "song3", "start", "end", "communion",
   "song1path", "song2path", "song3path", "startpath", "endpath", "communionpath"]

/-- `ServiceDataManager.extract_song_data`:
`{key: event_data.get(key, 'none') for key in song_keys}`. -/
def extract_song_data (event_data : Record) : List (String × String) :=
  song_keys.map (fun key => (key, dictGetD event_data key "none"))

/-- `ServiceDataManager.get_service_data`:
`extract_song_data(self.data.get(date_str, {}))`. -/
def get_service_data (data : Doc) (date_str : Date) : List (String × String) :=
  extract_song_data (dictGetD data date_str [])

/-- `ServiceDataManager.load_data`. The file system is an explicit parameter:
`none` = the JSON file does not exist, `some none` = it exists but
`json.load` raises, `some (some d)` = it parses to `d`. Returns the success
flag together with the resulting `self.data`, given the previous `self.data`
(on the not-found path and in the `except` handler the assignment
`self.data = json.load(file)` never executes, so `self.data` is untouched). -/
def load_data (file : Option (Option Doc)) (data : Doc) : Bool × Doc :=
  match file with
  | some (some newData) => (true, newData)
  | some none => (false, data)
  | none => (false, data)

/-- `CompanionAPI.variable_map`: the fixed field → remote-variable table. -/
def variable_map : List (String × String) :=
  [("song1", "9amSong1"), ("song2", "9amSong2"), ("song3", "9amSong3"),
   ("start", "9amStart"), ("end", "9amEnd"), ("communion", "9amCommunion"),
   ("song1path", "9amSong1Path"), ("song2path", "9amSong2Path"),
   ("song3path", "9amSong3Path"), ("startpath", "9amStartPath"),
   ("endpath", "9amEndPath"), ("communionpath", "9amCommunionPath")]

/-- `CompanionAPI.test_connection`. `socketConn` models
`socket.create_connection((ip, 8000), timeout=3)` (error = raised
`socket.error`, e.g. unreachable host, closed port or timeout); `apiResponse`
models `requests.get(url, timeout=3)` (error = raised `RequestException`,
`ok s` = a response with `status_code = s`). Both exception kinds are caught
by the single `except` clause, which returns `False`. -/
def test_connection (socketConn : Except String Unit) (apiResponse : Except String Nat) : Bool :=
  match socketConn with
  | .error _ => false
  | .ok _ =>
    match apiResponse with
    | .error _ => false
    | .ok statusCode => statusCode == 200

/-- One attempted field write of `update_service_data`, as the error entry it
contributes: `some` when the key is in `variable_map` and the `post` to its
variable raises (error text `f"{var_name}: {e}"`), `none` otherwise. -/
def pushFieldError (post : String → String → Option String) (kv : String × String) :
    Option String :=
  (dictLookup variable_map kv.1).bind (fun varName =>
    (post varName kv.2).map (fun e => varName ++ ": " ++ e))

/-- One attempted field write of `update_service_data`, as the
(variable, value) HTTP call it issues: `some` exactly when the key is in
`variable_map`. -/
def pushFieldWrite (kv : String × String) : Option (String × String) :=
  (dictLookup variable_map kv.1).map (fun varName => (varName, kv.2))

/-- The body of the `for key, value in song_data.items()` loop of
`update_service_data`, acting on the accumulated (errors, attempted writes). -/
def pushStep (post : String → String → Option String)
    (acc : List String × List (String × String)) (kv : String × String) :
    List String × List (String × String) :=
  match dictLookup variable_map kv.1 with
  | some varName =>
    match post varName kv.2 with
    | some e => (acc.1 ++ [varName ++ ": " ++ e], acc.2 ++ [(varName, kv.2)])
    | none => (acc.1, acc.2 ++ [(varName, kv.2)])
  | none => acc

/-- `CompanionAPI.update_service_data`, instrumented with the sequence of
attempted HTTP writes. `post v s` models
`requests.post(f"{base}/{v}/value?value={s}", timeout=5)`: `some e` when it
raises a `RequestException` with text `e` (caught and recorded), `none` when
it returns (any status — the source never checks the response). The date
write `ServiceDate` is attempted first, then one write per `song_data` item
whose key is in `variable_map`, in document order. Returns
(accumulated errors, attempted writes in order). -/
def update_service_data_run (post : String → String → Option String)
    (song_data : List (String × String)) (service_date : String) :
    List String × List (String × String) :=
  let dateErrors : List String :=
    match post "ServiceDate" service_date with
    | some e => ["ServiceDate: " ++ e]
    | none => []
  song_data.foldl (pushStep post) (dateErrors, [("ServiceDate", service_date)])

/-- `CompanionAPI.update_service_data`: the error list it returns. -/
def update_service_data (post : String → String → Option String)
    (song_data : List (String × String)) (service_date : String) : List String :=
  (update_service_data_run post song_data service_date).1

/-- The in-memory `configparser` state: (section, option) → value. Option
names are stored already transformed by `optionxform` (lowercased). -/
abbrev Cfg := List ((String × String) × String)

/-- The raw store of `RawConfigParser.set` (after `before_set` has accepted
the value): overwrite the option if present, else append it. The `opt`
argument is the already-`optionxform`ed option name. -/
def cfgSet : Cfg → String → String → String → Cfg
  | [], sec, opt, val => [((sec, opt), val)]
  | (k, v) :: rest, sec, opt, val =>
    if k = (sec, opt) then (k, val) :: rest else (k, v) :: cfgSet rest sec opt val

/-- ASCII lowercasing of a character, as `str.lower` acts on the ASCII
values this program stores. -/
def lowerChar (c : Char) : Char :=
  if 'A' ≤ c ∧ c ≤ 'Z' then Char.ofNat (c.toNat + 32) else c

/-- Python `str.lower` (ASCII; exact on every value this program stores).
Also `configparser`'s default `optionxform`. -/
def pyLower (s : String) : String :=
  String.mk (s.data.map lowerChar)

/-- `configparser`'s `BOOLEAN_STATES` table applied to an already lowercased
value; `none` models the `ValueError` raised on any other value. -/
def convertToBoolean (s : String) : Option Bool :=
  if s = "1" ∨ s = "yes" ∨ s = "true" ∨ s = "on" then some true
  else if s = "0" ∨ s = "no" ∨ s = "false" ∨ s = "off" then some false
  else none

/-- Python `str(b)` on a bool. -/
def pyStrBool (b : Bool) : String :=
  if b then "True" else "False"

/-- Python `str.isspace` on the ASCII whitespace characters. -/
def pyWhitespace (c : Char) : Bool :=
  (c == ' ') || (c == '\t') || (c == '\n') || (c == '\r') || (c == '\x0b') || (c == '\x0c')

/-- Python `str.strip()` (ASCII whitespace). This is also, per value, what
the INI write/read cycle does to a single-line value: `ConfigParser.write`
emits `option = value` and `ConfigParser._read` strips the part after the
delimiter. -/
def pyStrip (s : String) : String :=
  String.mk (((s.data.dropWhile pyWhitespace).reverse.dropWhile pyWhitespace).reverse)

/-- A match of `configparser`'s `_KEYCRE` interpolation regex (percent, open
paren, one or more non-close-paren key characters, close paren, letter s) at
the current position, entered just after the leading percent and open paren
have been consumed: returns the key characters and the remainder after the
match, or `none` when the regex does not match here. -/
def takeKey (l : List Char) : Option (List Char × List Char) :=
  if (l.takeWhile (fun c => !(c = ')'))).length = 0 then none
  else
    match l.drop (l.takeWhile (fun c => !(c = ')'))).length with
    | ')' :: 's' :: rest => some (l.takeWhile (fun c => !(c = ')')), rest)
    | _ => none

/-- A successful `takeKey` consumes at least the closing characters; needed
for termination of the interpolation scanners below. -/
theorem takeKey_length (l k rest : List Char) (h : takeKey l = some (k, rest)) :
    rest.length < l.length := by
  unfold takeKey at h
  split at h
  · exact absurd h (by simp)
  · split at h
    next heq =>
      have hlen := congrArg List.length heq
      simp only [List.length_drop, List.length_cons] at hlen
      injection h with h2
      injection h2 with _ h3
      subst h3
      omega
    next => exact absurd h (by simp)

/-- Step 1 of `BasicInterpolation.before_set`: Python's
`value.replace(doubled percent, empty)` — drop each left-to-right
non-overlapping pair of percent signs. -/
def stripDoublePercents : List Char → List Char
  | [] => []
  | '%' :: '%' :: rest => stripDoublePercents rest
  | c :: rest => c :: stripDoublePercents rest

/-- Step 2 of `BasicInterpolation.before_set`: `_KEYCRE.sub` with an empty
replacement — drop each leftmost non-overlapping regex match; a percent that
starts no match is kept and scanning resumes after it. -/
def keycreStripAll : List Char → List Char
  | [] => []
  | '%' :: '(' :: cs2 =>
    (match htk : takeKey cs2 with
     | some kr => keycreStripAll kr.2
     | none => '%' :: keycreStripAll ('(' :: cs2))
  | c :: cs => c :: keycreStripAll cs
  termination_by l => l.length
  decreasing_by
    all_goals simp_wf
    all_goals first
      | omega
      | (have hlt := takeKey_length _ _ _ htk; omega)

/-- `BasicInterpolation.before_set`: after dropping escaped percents and
well-formed interpolation references, any remaining percent raises
`ValueError` (`none`); otherwise the value is stored unchanged. -/
def beforeSet (value : String) : Option String :=
  if (keycreStripAll (stripDoublePercents value.data)).contains '%' then none
  else some value

/-- `BasicInterpolation._interpolate_some`, the scanner `before_get` runs on
a raw value: a doubled percent yields one percent; a `_KEYCRE` match is
replaced by the referenced option's raw value from the section map, itself
interpolated (at decremented fuel) when it contains a percent; any other use
of percent is an `InterpolationSyntaxError`, a reference to a missing option
an `InterpolationMissingOptionError` (both `none`). The fuel embeds Python's
`MAX_INTERPOLATION_DEPTH` check: depth `d` there corresponds to fuel
`11 - d` here, so the top-level call (depth 1) has fuel 10 and fuel 0 is the
`InterpolationDepthError` raised at entry when the depth exceeds 10. -/
def interpSome (secMap : List (String × String)) : Nat → List Char → Option (List Char)
  | 0, _ => none
  | _+1, [] => some []
  | fuel+1, '%' :: '%' :: cs2 => (interpSome secMap (fuel+1) cs2).map (fun r => '%' :: r)
  | fuel+1, '%' :: '(' :: cs2 =>
    (match htk : takeKey cs2 with
     | none => none
     | some kr =>
       match dictLookup secMap (pyLower (String.mk kr.1)) with
       | none => none
       | some v =>
         if v.data.contains '%' then
           match interpSome secMap fuel v.data with
           | none => none
           | some ex => (interpSome secMap (fuel+1) kr.2).map (fun r => ex ++ r)
         else (interpSome secMap (fuel+1) kr.2).map (fun r => v.data ++ r))
  | _+1, '%' :: _ => none
  | fuel+1, c :: cs => (interpSome secMap (fuel+1) cs).map (fun r => c :: r)
  termination_by fuel l => (fuel, l.length)
  decreasing_by
    all_goals simp_wf
    all_goals first
      | (apply Prod.Lex.left; omega)
      | (apply Prod.Lex.right; first | omega | (have hlt := takeKey_length _ _ _ htk; omega))

/-- `ConfigParser.set(section, option, value)` as `Config.update_settings`
calls it: `before_set` validates the value (`none` = the `ValueError` it
raises on a stray percent), then the raw store assigns it under the
`optionxform`ed option name. -/
def cfgSetOpt (c : Cfg) (sec opt val : String) : Option Cfg :=
  (beforeSet val).map (fun v => cfgSet c sec (pyLower opt) v)

/-- The option/raw-value map of one section, as `_unify_values` hands it to
the interpolation for lookups of `%(name)s` references. -/
def sectionMap (c : Cfg) (sec : String) : List (String × String) :=
  c.filterMap (fun kv => if kv.1.1 = sec then some (kv.1.2, kv.2) else none)

/-- `ConfigParser.get(section, option, fallback=fb)`: the fallback when the
section or option is missing; otherwise `before_get` interpolation on the
raw value (`none` = an interpolation error propagating to the caller, which
the `fallback` argument does not catch). -/
def cfgGet (c : Cfg) (sec opt fb : String) : Option String :=
  match dictLookup c (sec, pyLower opt) with
  | none => some fb
  | some v => (interpSome (sectionMap c sec) 10 v.data).map String.mk

/-- `ConfigParser.getboolean(section, option, fallback=fb)`: the fallback
(unconverted) when the option is missing; otherwise interpolation then
`BOOLEAN_STATES[value.lower()]` (`none` = an interpolation error or the
conversion `ValueError`). -/
def cfgGetBoolean (c : Cfg) (sec opt : String) (fb : Bool) : Option Bool :=
  match dictLookup c (sec, pyLower opt) with
  | none => some fb
  | some v =>
    match interpSome (sectionMap c sec) 10 v.data with
    | none => none
    | some l => convertToBoolean (pyLower (String.mk l))

/-- `Config.get_save_folder`, reading from a loaded configuration state. -/
def get_save_folder (c : Cfg) : Option String :=
  cfgGet c "Paths" "SaveFolderPath" ""

/-- `Config.get_companion_ip`. -/
def get_companion_ip (c : Cfg) : Option String :=
  cfgGet c "Companion" "CompanionIP" ""

/-- `Config.get_show_refresh_button`. -/
def get_show_refresh_button (c : Cfg) : Option Bool :=
  cfgGetBoolean c "UI" "ShowRefreshButton" false

/-- `Config.update_settings`: set the three options in order (sections are
ensured to exist first, which the flat map makes vacuous) and save. `none`
models the `ValueError` a `set` raises on a stray percent, which
`update_settings` propagates (the file is then not written). On success the
returned state is what `_save_config` persists. -/
def update_settings (c : Cfg) (save_folder companion_ip : String) (show_refresh : Bool) :
    Option Cfg :=
  (cfgSetOpt c "Paths" "SaveFolderPath" save_folder).bind (fun c1 =>
    (cfgSetOpt c1 "Companion" "CompanionIP" companion_ip).bind (fun c2 =>
      cfgSetOpt c2 "UI" "ShowRefreshButton" (pyStrBool show_refresh)))

/-- The state a fresh `Config` instance reads back from the written INI file:
each stored value goes through the write/read cycle, which for a single-line
value is exactly `str.strip` of the value (multi-line values transform
differently and are outside the theorems below). -/
def freshLoad (c : Cfg) : Cfg := c.map (fun kv => (kv.1, pyStrip kv.2))

/-- Values on which the settings round trip is lossless: no percent (so
`before_set` accepts and `before_get` is the identity), single-line and
already stripped (so the file write/read cycle returns them unchanged). -/
def iniSafeValue (s : String) : Bool :=
  !(decide ('%' ∈ s.data)) && !(decide ('\n' ∈ s.data)) && !(decide ('\r' ∈ s.data)) &&
    (pyStrip s == s)

/-- The settings round trip of the claim: `update_settings` on a state, then
the three getters of a fresh instance that loads what was persisted. `none`
means `update_settings` raised. -/
def roundTripped (c : Cfg) (save_folder companion_ip : String) (show_refresh : Bool) :
    Option (Option String × Option String × Option Bool) :=
  (update_settings c save_folder companion_ip show_refresh).map (fun c2 =>
    (get_save_folder (freshLoad c2), get_companion_ip (freshLoad c2),
     get_show_refresh_button (freshLoad c2)))

/-! ## Helper lemmas -/

theorem dictLookup_keyMap (f : String → String) (ks : List String) (k : String)
    (h : k ∈ ks) : dictLookup (ks.map fun key => (key, f key)) k = some (f k) := by
  induction ks with
  | nil => cases h
  | cons a rest ih =>
    simp only [List.map_cons, dictLookup]
    by_cases hak : a = k
    · subst hak; simp
    · rw [if_neg hak]
      rcases List.mem_cons.mp h with h1 | h1
      · exact absurd h1.symm hak
      · exact ih h1

theorem dictLookup_isSome {α β : Type} [DecidableEq α] (m : List (α × β)) (k : α) :
    (dictLookup m k).isSome = true ↔ k ∈ m.map Prod.fst := by
  induction m with
  | nil => simp [dictLookup]
  | cons p rest ih =>
    obtain ⟨a, b⟩ := p
    by_cases h : a = k
    · subst h; simp [dictLookup]
    · simp only [dictLookup, if_neg h, List.map_cons, List.mem_cons, ih]
      constructor
      · intro hm; exact Or.inr hm
      · intro hm
        rcases hm with hm | hm
        · exact absurd hm.symm h
        · exact hm

theorem variable_map_keys : variable_map.map Prod.fst = song_keys := rfl

theorem length_filterMap_eq_countP {α β : Type} (f : α → Option β) (l : List α) :
    (l.filterMap f).length = l.countP (fun a => (f a).isSome) := by
  induction l with
  | nil => rfl
  | cons a rest ih =>
    rw [List.filterMap_cons, List.countP_cons]
    rcases h : f a with _ | b <;> simp [ih]

theorem dictLookup_cfgSet_self (c : Cfg) (sec opt val : String) :
    dictLookup (cfgSet c sec opt val) (sec, opt) = some val := by
  induction c with
  | nil => simp [cfgSet, dictLookup]
  | cons p rest ih =>
    obtain ⟨k, v⟩ := p
    simp only [cfgSet]
    by_cases hk : k = (sec, opt)
    · subst hk; simp [dictLookup]
    · rw [if_neg hk]
      simp only [dictLookup, if_neg hk]
      exact ih

theorem dictLookup_cfgSet_ne (c : Cfg) (sec opt val : String) (key : String × String)
    (h : ¬(sec, opt) = key) :
    dictLookup (cfgSet c sec opt val) key = dictLookup c key := by
  induction c with
  | nil => simp [cfgSet, dictLookup, if_neg h]
  | cons p rest ih =>
    obtain ⟨k, v⟩ := p
    simp only [cfgSet]
    by_cases hk : k = (sec, opt)
    · subst hk; simp only [dictLookup, if_neg h, if_pos rfl]
    · rw [if_neg hk]
      simp only [dictLookup]
      by_cases hky : k = key
      · rw [if_pos hky, if_pos hky]
      · rw [if_neg hky, if_neg hky]
        exact ih

/-! ## Claim theorems -/

/-- C2: for every record, `extract_song_data` returns a mapping total over
exactly the twelve recognized field names (in the fixed order), where each
recognized field maps to the record's stored value when present and to the
literal placeholder `"none"` when absent; a defaulted field is
indistinguishable from an explicitly stored `"none"`. -/
theorem extract_song_data_spec (r : Record) :
    (extract_song_data r).map Prod.fst = song_keys ∧
    (∀ k, k ∈ song_keys →
      dictLookup (extract_song_data r) k = some (dictGetD r k "none")) ∧
    (∀ k, k ∈ song_keys → dictLookup r k = none →
      dictLookup (extract_song_data r) k = some "none") ∧
    (∀ k, k ∈ song_keys → dictLookup r k = some "none" →
      dictLookup (extract_song_data r) k = some "none") := by
  refine ⟨rfl, ?_, ?_, ?_⟩
  · intro k hk
    exact dictLookup_keyMap _ _ _ hk
  · intro k hk h0
    have h2 : dictLookup (extract_song_data r) k = some (dictGetD r k "none") :=
      dictLookup_keyMap _ _ _ hk
    rw [h2]
    simp [dictGetD, h0]
  · intro k hk h0
    have h2 : dictLookup (extract_song_data r) k = some (dictGetD r k "none") :=
      dictLookup_keyMap _ _ _ hk
    rw [h2]
    simp [dictGetD, h0]

/-- Witness for C2 at a concrete record: one stored field, one absent field. -/
theorem extract_song_data_spec_witness :
    (extract_song_data [("song1", "Amazing Grace")]).map Prod.fst = song_keys ∧
    dictLookup (extract_song_data [("song1", "Amazing Grace")]) "song1" =
      some "Amazing Grace" ∧
    dictLookup (extract_song_data [("song1", "Amazing Grace")]) "song2" = some "none" := by
  have h := extract_song_data_spec [("song1", "Amazing Grace")]
  refine ⟨h.1, ?_, ?_⟩
  · have h2 := h.2.1 "song1" (by decide)
    rw [h2]; rfl
  · exact h.2.2.1 "song2" (by decide) (by decide)

/-- C5: `test_connection` is a total Boolean function of the two network
outcomes (it never propagates an exception — both `socket.error` and
`RequestException` are caught and yield `False`), and it returns `true`
exactly when the raw socket connection succeeds and the GET of
`/ServiceDate/value` returns status 200; in particular it is `false` whenever
either step errors (unreachable host, closed port, timeout). -/
theorem test_connection_spec (socketConn : Except String Unit)
    (apiResponse : Except String Nat) :
    test_connection socketConn apiResponse = true ↔
      socketConn = Except.ok () ∧ apiResponse = Except.ok 200 := by
  cases socketConn with
  | error e => simp [test_connection]
  | ok u =>
    cases u
    cases apiResponse with
    | error e => simp [test_connection]
    | ok s => simp [test_connection]


/-- C8: looking up an unknown date never fails and yields the all-placeholder
mapping — indistinguishable from a date whose record stores no recognized
field. -/
theorem get_service_data_unknown (data : Doc) (d : Date)
    (h : dictLookup data d = none) :
    get_service_data data d = song_keys.map (fun k => (k, "none")) ∧
    get_service_data data d = extract_song_data [] := by
  have hd : dictGetD data d [] = [] := by simp [dictGetD, h]
  constructor
  · rw [get_service_data, hd]
    simp [extract_song_data, dictGetD, dictLookup]
  · rw [get_service_data, hd]

/-- Witness for C8 at a concrete document and an absent date. -/
theorem get_service_data_unknown_witness :
    get_service_data [((⟨1, 1, 2025⟩ : Date), [("song1", "X")])] (⟨2, 2, 2025⟩ : Date) =
      song_keys.map (fun k => (k, "none")) ∧
    get_service_data [((⟨1, 1, 2025⟩ : Date), [("song1", "X")])] (⟨2, 2, 2025⟩ : Date) =
      extract_song_data [] :=
  get_service_data_unknown _ _ (by decide)

/-- C10: whenever `load_data` reports failure (missing file or parse error),
the in-memory document is exactly what it was before the call. -/
theorem load_data_failure_preserves (file : Option (Option Doc)) (data : Doc)
    (h : (load_data file data).1 = false) :
    (load_data file data).2 = data := by
  cases file with
  | none => rfl
  | some f =>
    cases f with
    | none => rfl
    | some d => simp [load_data] at h

/-- Witness for C10 at a concrete parse failure over a non-empty document. -/
theorem load_data_failure_preserves_witness :
    (load_data (some none) [((⟨1, 1, 2025⟩ : Date), [("song1", "X")])]).2 =
      [((⟨1, 1, 2025⟩ : Date), [("song1", "X")])] :=
  load_data_failure_preserves (some none) _ rfl

/-- The `foldl` of the field loop splits into the accumulated prefix plus the
per-field error entries and attempted writes, in document order. -/
theorem pushStep_foldl (post : String → String → Option String)
    (sd : List (String × String)) :
    ∀ (e : List String) (t : List (String × String)),
      sd.foldl (pushStep post) (e, t) =
        (e ++ sd.filterMap (pushFieldError post), t ++ sd.filterMap pushFieldWrite) := by
  induction sd with
  | nil => intro e t; simp
  | cons kv rest ih =>
    intro e t
    rw [List.foldl_cons, List.filterMap_cons, List.filterMap_cons]
    rcases hv : dictLookup variable_map kv.1 with _ | varName
    · simp only [pushStep, hv, pushFieldError, pushFieldWrite, Option.bind, Option.map]
      exact ih e t
    · rcases hp : post varName kv.2 with _ | err
      · simp only [pushStep, hv, hp, pushFieldError, pushFieldWrite, Option.bind,
          Option.map]
        rw [ih]
        simp
      · simp only [pushStep, hv, hp, pushFieldError, pushFieldWrite, Option.bind,
          Option.map]
        rw [ih]
        simp

/-- Closed form of `update_service_data_run`: the date write and its possible
error entry come first, then exactly one entry per `song_data` item whose key
is in `variable_map`, in document order. -/
theorem update_run_spec (post : String → String → Option String)
    (song_data : List (String × String)) (service_date : String) :
    update_service_data_run post song_data service_date =
      ((match post "ServiceDate" service_date with
        | some e => ["ServiceDate: " ++ e]
        | none => []) ++ song_data.filterMap (pushFieldError post),
       ("ServiceDate", service_date) :: song_data.filterMap pushFieldWrite) := by
  rw [update_service_data_run, pushStep_foldl]
  rfl

/-- C7: in every invocation of `update_service_data`, the `ServiceDate` write
is the first attempted HTTP call; every per-field write comes strictly after
it in the attempted-write sequence. -/
theorem update_service_date_first (post : String → String → Option String)
    (song_data : List (String × String)) (service_date : String) :
    (update_service_data_run post song_data service_date).2 =
      ("ServiceDate", service_date) :: song_data.filterMap pushFieldWrite := by
  rw [update_run_spec]

/-- C9: an input entry whose key is outside the 12-entry `variable_map` table
is skipped silently — removing it changes neither the error list nor the
sequence of attempted HTTP writes. -/
theorem update_skips_unmapped (post : String → String → Option String)
    (sd1 sd2 : List (String × String)) (k v service_date : String)
    (h : dictLookup variable_map k = none) :
    update_service_data_run post (sd1 ++ (k, v) :: sd2) service_date =
      update_service_data_run post (sd1 ++ sd2) service_date := by
  rw [update_run_spec, update_run_spec]
  have he : pushFieldError post (k, v) = none := by simp [pushFieldError, h]
  have hw : pushFieldWrite (k, v) = none := by simp [pushFieldWrite, h]
  rw [List.filterMap_append, List.filterMap_append, List.filterMap_cons, he,
    List.filterMap_append, List.filterMap_append, List.filterMap_cons, hw]

/-- Witness for C9: the unrecognized key `"banana"` produces no call and no
error entry. -/
theorem update_skips_unmapped_witness :
    update_service_data_run (fun _ _ => none) [("banana", "B"), ("song1", "A")] "x" =
      update_service_data_run (fun _ _ => none) [("song1", "A")] "x" :=
  update_skips_unmapped (fun _ _ => none) [] [("song1", "A")] "banana" "B" "x" (by decide)

/-- A nodup key list containing all twelve recognized keys contains exactly
twelve keys of the `variable_map` table. -/
theorem countP_mapped_keys (keys : List String) (hnd : keys.Nodup)
    (hall : ∀ k ∈ song_keys, k ∈ keys) :
    keys.countP (fun k => (dictLookup variable_map k).isSome) = 12 := by
  have hq : ∀ k ∈ keys, ((dictLookup variable_map k).isSome = true) ↔
      (decide (k ∈ song_keys) = true) := by
    intro k _
    rw [dictLookup_isSome, variable_map_keys, decide_eq_true_iff]
  rw [List.countP_congr hq, List.countP_eq_length_filter]
  have hperm : (keys.filter (fun k => decide (k ∈ song_keys))).Perm song_keys := by
    apply List.perm_of_nodup_nodup_toFinset_eq (hnd.filter _) (by decide)
    ext x
    simp only [List.mem_toFinset, List.mem_filter, decide_eq_true_iff]
    exact ⟨fun hx => hx.2, fun hx => ⟨hall x hx, hx⟩⟩
  rw [hperm.length_eq]
  rfl

/-- C4: when every HTTP call raises, `update_service_data` on an input
containing the twelve recognized fields returns an error list of length 13
(one entry for the date write plus one per field present in the 12-entry
table), equal to the number of attempted writes — the loop continues through
every failure, and the total embedding returns normally rather than raising. -/
theorem update_all_fail_errors (post : String → String → Option String)
    (song_data : List (String × String)) (service_date : String)
    (hfail : ∀ v s, (post v s).isSome = true)
    (hnodup : (song_data.map Prod.fst).Nodup)
    (hall : ∀ k ∈ song_keys, k ∈ song_data.map Prod.fst) :
    (update_service_data post song_data service_date).length = 13 ∧
    (update_service_data_run post song_data service_date).2.length = 13 := by
  obtain ⟨e0, he0⟩ := Option.isSome_iff_exists.mp (hfail "ServiceDate" service_date)
  have hcount : (song_data.map Prod.fst).countP
      (fun k => (dictLookup variable_map k).isSome) = 12 :=
    countP_mapped_keys _ hnodup hall
  have hcount2 : song_data.countP
      (fun kv => (dictLookup variable_map kv.1).isSome) = 12 := by
    rw [← hcount, List.countP_map]
    rfl
  constructor
  · rw [update_service_data, update_run_spec]
    simp only [he0, List.length_append, List.length_singleton,
      length_filterMap_eq_countP]
    have herr : song_data.countP (fun kv => (pushFieldError post kv).isSome) = 12 := by
      rw [← hcount2]
      apply List.countP_congr
      intro kv _
      rcases hv : dictLookup variable_map kv.1 with _ | varName
      · simp [pushFieldError, hv]
      · obtain ⟨e1, he1⟩ := Option.isSome_iff_exists.mp (hfail varName kv.2)
        simp [pushFieldError, hv, he1]
    rw [herr]
  · rw [update_service_date_first]
    simp only [List.length_cons, length_filterMap_eq_countP]
    have hwr : song_data.countP (fun kv => (pushFieldWrite kv).isSome) = 12 := by
      rw [← hcount2]
      apply List.countP_congr
      intro kv _
      rcases hv : dictLookup variable_map kv.1 with _ | varName <;>
        simp [pushFieldWrite, hv]
    rw [hwr]

/-- Witness for C4: a target failing every call, on an input holding exactly
the twelve recognized fields, yields 13 error entries and 13 attempted
writes. -/
theorem update_all_fail_errors_witness :
    (update_service_data (fun _ _ => some "boom")
      (song_keys.map (fun k => (k, "v"))) "07/07/2030").length = 13 ∧
    (update_service_data_run (fun _ _ => some "boom")
      (song_keys.map (fun k => (k, "v"))) "07/07/2030").2.length = 13 :=
  update_all_fail_errors (fun _ _ => some "boom") _ _ (fun _ _ => rfl)
    (by decide) (by decide)

/-- C3: `get_sorted_dates` returns exactly the document's keys (a
permutation of them, so independent of insertion order) arranged in
non-decreasing calendar-date order. -/
theorem get_sorted_dates_spec (data : Doc) :
    (get_sorted_dates data).Perm (data.map Prod.fst) ∧
    List.Sorted dateOrder (get_sorted_dates data) :=
  ⟨List.perm_insertionSort dateOrder _, List.sorted_insertionSort dateOrder _⟩

/-- C1: `find_nearest_upcoming_service` returns an item of the document whose
date is `>= today` (inclusive) and minimal among all such keys when one
exists, and returns `None` exactly when the document is empty or every key is
strictly before `today`. -/
theorem find_nearest_spec (data : Doc) (today : Date) :
    (∀ d r, find_nearest_upcoming_service data today = some (d, r) →
      (d, r) ∈ data ∧ dateOrder today d ∧
      ∀ p ∈ data, dateOrder today p.1 → dateOrder d p.1) ∧
    (find_nearest_upcoming_service data today = none ↔
      ∀ p ∈ data, ¬ dateOrder today p.1) := by
  have hperm : (List.insertionSort pairOrder
      (data.filter (fun p => Date.le today p.1))).Perm
      (data.filter (fun p => Date.le today p.1)) :=
    List.perm_insertionSort _ _
  have hsort : List.Sorted pairOrder
      (List.insertionSort pairOrder (data.filter (fun p => Date.le today p.1))) :=
    List.sorted_insertionSort _ _
  constructor
  · intro d r hsome
    obtain ⟨tail, htl⟩ : ∃ tail,
        List.insertionSort pairOrder (data.filter (fun p => Date.le today p.1)) =
          (d, r) :: tail := by
      cases hs : List.insertionSort pairOrder
          (data.filter (fun p => Date.le today p.1)) with
      | nil =>
        rw [find_nearest_upcoming_service, hs] at hsome
        simp at hsome
      | cons x t =>
        rw [find_nearest_upcoming_service, hs] at hsome
        simp only [List.head?_cons, Option.some_inj] at hsome
        exact ⟨t, by rw [hsome]⟩
    have hmem_fe : (d, r) ∈ data.filter (fun p => Date.le today p.1) :=
      hperm.subset (htl ▸ List.mem_cons_self (d, r) tail)
    have hmf := List.mem_filter.mp hmem_fe
    have hmem_data : (d, r) ∈ data := hmf.1
    have hpred : dateOrder today d := hmf.2
    refine ⟨hmem_data, hpred, ?_⟩
    intro p hp hpt
    have hpfe : p ∈ data.filter (fun q => Date.le today q.1) :=
      List.mem_filter.mpr ⟨hp, hpt⟩
    have hpsorted : p ∈ (d, r) :: tail := htl ▸ hperm.mem_iff.mpr hpfe
    rcases List.mem_cons.mp hpsorted with h | h
    · rw [h]
      exact dateOrder_refl d
    · exact List.rel_of_sorted_cons (htl ▸ hsort) p h
  · constructor
    · intro hnone p hp hpt
      have hnil : List.insertionSort pairOrder
          (data.filter (fun q => Date.le today q.1)) = [] := by
        rw [find_nearest_upcoming_service] at hnone
        exact List.head?_eq_none_iff.mp hnone
      have hfe_nil : data.filter (fun q => Date.le today q.1) = [] :=
        (hnil ▸ hperm).symm.eq_nil.symm ▸ rfl
      have hpfe : p ∈ data.filter (fun q => Date.le today q.1) :=
        List.mem_filter.mpr ⟨hp, hpt⟩
      rw [hfe_nil] at hpfe
      cases hpfe
    · intro hall
      have hfe_nil : data.filter (fun q => Date.le today q.1) = [] := by
        rw [List.filter_eq_nil_iff]
        intro p hp
        exact hall p hp
      rw [find_nearest_upcoming_service, hfe_nil]
      rfl

/-- Witness for C1 at a one-service document with an upcoming date. -/
theorem find_nearest_spec_witness :
    ((⟨5, 1, 2030⟩ : Date), ([("song1", "X")] : Record)) ∈
      ([((⟨5, 1, 2030⟩ : Date), ([("song1", "X")] : Record))] : Doc) ∧
    dateOrder ⟨1, 1, 2024⟩ ⟨5, 1, 2030⟩ := by
  have h := (find_nearest_spec [((⟨5, 1, 2030⟩ : Date), ([("song1", "X")] : Record))]
    ⟨1, 1, 2024⟩).1 ⟨5, 1, 2030⟩ [("song1", "X")] (by decide)
  exact ⟨h.1, h.2.1⟩

/-- Dropping doubled percents is the identity on a percent-free value. -/
theorem stripDoublePercents_id (l : List Char) (h : ¬ ('%' ∈ l)) :
    stripDoublePercents l = l := by
  induction l with
  | nil => rfl
  | cons c cs ih =>
    have hc : ¬ c = '%' := fun hc => h (hc ▸ List.mem_cons_self c cs)
    have hcs : ¬ ('%' ∈ cs) := fun hm => h (List.mem_cons_of_mem c hm)
    have ih2 := ih hcs
    simp [stripDoublePercents, hc, ih2]

/-- Dropping interpolation references is the identity on a percent-free
value. -/
theorem keycreStripAll_id (l : List Char) (h : ¬ ('%' ∈ l)) :
    keycreStripAll l = l := by
  induction l with
  | nil => simp [keycreStripAll]
  | cons c cs ih =>
    have hc : ¬ c = '%' := fun hc => h (hc ▸ List.mem_cons_self c cs)
    have hcs : ¬ ('%' ∈ cs) := fun hm => h (List.mem_cons_of_mem c hm)
    have ih2 := ih hcs
    simp [keycreStripAll, hc, ih2]

/-- `before_set` accepts a percent-free value unchanged. -/
theorem beforeSet_no_percent (s : String) (h : ¬ ('%' ∈ s.data)) :
    beforeSet s = some s := by
  rw [beforeSet, stripDoublePercents_id _ h, keycreStripAll_id _ h]
  simp
  intro hmem
  exact h hmem

/-- Interpolation with remaining fuel is the identity on a percent-free
value. -/
theorem interpSome_no_percent (m : List (String × String)) (fuel : Nat) (l : List Char)
    (hfuel : ¬ fuel = 0) (h : ¬ ('%' ∈ l)) : interpSome m fuel l = some l := by
  obtain ⟨f2, rfl⟩ : ∃ f2, fuel = f2 + 1 := ⟨fuel - 1, by omega⟩
  clear hfuel
  induction l with
  | nil => simp [interpSome]
  | cons c cs ih =>
    have hc : ¬ c = '%' := fun hc => h (hc ▸ List.mem_cons_self c cs)
    have hcs : ¬ ('%' ∈ cs) := fun hm => h (List.mem_cons_of_mem c hm)
    have ih2 := ih hcs
    simp [interpSome, hc, ih2]

theorem pyStrBool_noPercent (b : Bool) : ¬ ('%' ∈ (pyStrBool b).data) := by
  cases b <;> decide

theorem pyStrip_pyStrBool (b : Bool) : pyStrip (pyStrBool b) = pyStrBool b := by
  cases b <;> decide

/-- Looking up in a value-mapped association list maps the result. -/
theorem dictLookup_mapValues {α β γ : Type} [DecidableEq α] (f : β → γ)
    (c : List (α × β)) (k : α) :
    dictLookup (c.map (fun kv => (kv.1, f kv.2))) k = (dictLookup c k).map f := by
  induction c with
  | nil => rfl
  | cons p rest ih =>
    obtain ⟨a, b⟩ := p
    simp only [List.map_cons, dictLookup]
    by_cases h : a = k
    · rw [if_pos h, if_pos h]; rfl
    · rw [if_neg h, if_neg h]; exact ih

/-- C6 counterexample: the round trip is not the identity on every string.
A value holding an escaped percent is read back with the pair collapsed, a
value with surrounding whitespace is read back stripped, and a value with a
stray percent makes `update_settings` raise `ValueError` instead of saving. -/
theorem update_settings_roundtrip_cex :
    roundTripped [] "a%%b" "10.0.0.5" false =
      some (some "a%b", some "10.0.0.5", some false) ∧
    ¬ (("a%b" : String) = "a%%b") ∧
    roundTripped [] "  C:/media  " "10.0.0.5" false =
      some (some "C:/media", some "10.0.0.5", some false) ∧
    ¬ (("C:/media" : String) = "  C:/media  ") ∧
    update_settings [] "100%" "10.0.0.5" false = none := by
  refine ⟨?_, by decide, ?_, by decide, ?_⟩
  · have hb : beforeSet "a%%b" = some "a%%b" := by
      rw [beforeSet, show ("a%%b" : String).data = ['a', '%', '%', 'b'] from rfl,
        show stripDoublePercents ['a', '%', '%', 'b'] = ['a', 'b'] from rfl,
        keycreStripAll_id _ (by decide)]
      decide
    have hbi : beforeSet "10.0.0.5" = some "10.0.0.5" := beforeSet_no_percent _ (by decide)
    have hbf : beforeSet (pyStrBool false) = some (pyStrBool false) :=
      beforeSet_no_percent _ (by decide)
    rw [roundTripped, update_settings, cfgSetOpt, hb, Option.map_some', Option.some_bind,
      cfgSetOpt, hbi, Option.map_some', Option.some_bind, cfgSetOpt, hbf, Option.map_some',
      Option.map_some']
    simp [get_save_folder, get_companion_ip, get_show_refresh_button, cfgGet, cfgGetBoolean,
      freshLoad, cfgSet, dictLookup, pyStrip, pyWhitespace, sectionMap, interpSome,
      convertToBoolean, pyLower, lowerChar, pyStrBool]
  · have hb : beforeSet "  C:/media  " = some "  C:/media  " :=
      beforeSet_no_percent _ (by decide)
    have hbi : beforeSet "10.0.0.5" = some "10.0.0.5" := beforeSet_no_percent _ (by decide)
    have hbf : beforeSet (pyStrBool false) = some (pyStrBool false) :=
      beforeSet_no_percent _ (by decide)
    rw [roundTripped, update_settings, cfgSetOpt, hb, Option.map_some', Option.some_bind,
      cfgSetOpt, hbi, Option.map_some', Option.some_bind, cfgSetOpt, hbf, Option.map_some',
      Option.map_some']
    simp [get_save_folder, get_companion_ip, get_show_refresh_button, cfgGet, cfgGetBoolean,
      freshLoad, cfgSet, dictLookup, pyStrip, pyWhitespace, sectionMap, interpSome,
      convertToBoolean, pyLower, lowerChar, pyStrBool]
  · have hk : keycreStripAll ['1', '0', '0', '%'] = ['1', '0', '0', '%'] := by
      simp [keycreStripAll]
    have hb : beforeSet "100%" = none := by
      rw [beforeSet, show ("100%" : String).data = ['1', '0', '0', '%'] from rfl,
        show stripDoublePercents ['1', '0', '0', '%'] = ['1', '0', '0', '%'] from rfl, hk]
      decide
    rw [update_settings, cfgSetOpt, hb]
    rfl

/-- C6 (amended): for save-folder and companion-IP strings with no percent
sign, no newline or carriage return, and no leading or trailing whitespace,
and every refresh flag, `update_settings` succeeds and the three getters of
a fresh instance loading the persisted state return exactly the saved
values. -/
theorem update_settings_roundtrip_safe (c : Cfg) (save_folder companion_ip : String)
    (show_refresh : Bool)
    (hf : iniSafeValue save_folder = true) (hi : iniSafeValue companion_ip = true) :
    roundTripped c save_folder companion_ip show_refresh =
      some (some save_folder, some companion_ip, some show_refresh) := by
  simp only [iniSafeValue, Bool.and_eq_true, Bool.not_eq_true', decide_eq_false_iff_not,
    beq_iff_eq] at hf hi
  obtain ⟨⟨⟨hf1, _⟩, _⟩, hfs⟩ := hf
  obtain ⟨⟨⟨hi1, _⟩, _⟩, his⟩ := hi
  have hb1 : beforeSet save_folder = some save_folder := beforeSet_no_percent _ hf1
  have hb2 : beforeSet companion_ip = some companion_ip := beforeSet_no_percent _ hi1
  have hb3 : beforeSet (pyStrBool show_refresh) = some (pyStrBool show_refresh) :=
    beforeSet_no_percent _ (pyStrBool_noPercent show_refresh)
  have hup : update_settings c save_folder companion_ip show_refresh =
      some (cfgSet (cfgSet (cfgSet c "Paths" (pyLower "SaveFolderPath") save_folder)
        "Companion" (pyLower "CompanionIP") companion_ip)
        "UI" (pyLower "ShowRefreshButton") (pyStrBool show_refresh)) := by
    simp [update_settings, cfgSetOpt, hb1, hb2, hb3]
  have hk1 : dictLookup (cfgSet (cfgSet (cfgSet c "Paths" (pyLower "SaveFolderPath")
      save_folder) "Companion" (pyLower "CompanionIP") companion_ip)
      "UI" (pyLower "ShowRefreshButton") (pyStrBool show_refresh))
      ("Paths", pyLower "SaveFolderPath") = some save_folder := by
    rw [dictLookup_cfgSet_ne _ _ _ _ _ (by decide), dictLookup_cfgSet_ne _ _ _ _ _ (by decide),
      dictLookup_cfgSet_self]
  have hk2 : dictLookup (cfgSet (cfgSet (cfgSet c "Paths" (pyLower "SaveFolderPath")
      save_folder) "Companion" (pyLower "CompanionIP") companion_ip)
      "UI" (pyLower "ShowRefreshButton") (pyStrBool show_refresh))
      ("Companion", pyLower "CompanionIP") = some companion_ip := by
    rw [dictLookup_cfgSet_ne _ _ _ _ _ (by decide), dictLookup_cfgSet_self]
  have hk3 : dictLookup (cfgSet (cfgSet (cfgSet c "Paths" (pyLower "SaveFolderPath")
      save_folder) "Companion" (pyLower "CompanionIP") companion_ip)
      "UI" (pyLower "ShowRefreshButton") (pyStrBool show_refresh))
      ("UI", pyLower "ShowRefreshButton") = some (pyStrBool show_refresh) :=
    dictLookup_cfgSet_self _ _ _ _
  have g1 : get_save_folder (freshLoad (cfgSet (cfgSet (cfgSet c "Paths"
      (pyLower "SaveFolderPath") save_folder) "Companion" (pyLower "CompanionIP")
      companion_ip) "UI" (pyLower "ShowRefreshButton") (pyStrBool show_refresh))) =
      some save_folder := by
    rw [get_save_folder, cfgGet, freshLoad, dictLookup_mapValues, hk1, Option.map_some', hfs]
    dsimp only
    rw [interpSome_no_percent _ 10 _ (by decide) hf1, Option.map_some']
  have g2 : get_companion_ip (freshLoad (cfgSet (cfgSet (cfgSet c "Paths"
      (pyLower "SaveFolderPath") save_folder) "Companion" (pyLower "CompanionIP")
      companion_ip) "UI" (pyLower "ShowRefreshButton") (pyStrBool show_refresh))) =
      some companion_ip := by
    rw [get_companion_ip, cfgGet, freshLoad, dictLookup_mapValues, hk2, Option.map_some', his]
    dsimp only
    rw [interpSome_no_percent _ 10 _ (by decide) hi1, Option.map_some']
  have g3 : get_show_refresh_button (freshLoad (cfgSet (cfgSet (cfgSet c "Paths"
      (pyLower "SaveFolderPath") save_folder) "Companion" (pyLower "CompanionIP")
      companion_ip) "UI" (pyLower "ShowRefreshButton") (pyStrBool show_refresh))) =
      some show_refresh := by
    rw [get_show_refresh_button, cfgGetBoolean, freshLoad, dictLookup_mapValues, hk3,
      Option.map_some', pyStrip_pyStrBool]
    dsimp only
    rw [interpSome_no_percent _ 10 _ (by decide) (pyStrBool_noPercent show_refresh)]
    dsimp only
    cases show_refresh <;> decide
  rw [roundTripped, hup, Option.map_some', g1, g2, g3]

/-- Witness for C6 (amended) at concrete interpolation-free settings. -/
theorem update_settings_roundtrip_safe_witness :
    roundTripped [] "C:/ServiceMedia" "192.168.0.10" true =
      some (some "C:/ServiceMedia", some "192.168.0.10", some true) :=
  update_settings_roundtrip_safe [] "C:/ServiceMedia" "192.168.0.10" true
    (by decide) (by decide)
